import Mathlib

/-!
Verification of the projection engine of src/app.py (property investment
calculator).

The engine is the function calculate_data together with its helper
calculate_pmt.  calculate_data reads a collection of module-level bindings
(set by the sidebar widgets); those bindings are gathered here into the
Assumptions structure and passed explicitly.  Python float arithmetic is
modelled by exact rational arithmetic over ℚ, and the int() coercion
applied to each emitted column is modelled by truncQ (truncation toward
zero).  The appended dictionaries of the result DataFrame are modelled as
a list of YearRow values.
-/

/-- The two options of the repayment-mode radio button in the sidebar
(只还利息 (IO) / 本息同还 (P&I)); calculate_data branches on equality with
the first string. -/
inductive RepaymentType where
  | interestOnly
  | principalAndInterest
deriving DecidableEq

/-- The module-level bindings read by calculate_data, one field per Python
binding (the sidebar sets loan_term to 30 and cpi to 0.03; the remaining
fields come from widgets).  The source name of the field lvr is
loan_ratio (the LVR slider value divided by 100). -/
structure Assumptions where
  buy_price : ℚ
  stamp_duty : ℚ
  lvr : ℚ
  interest_rate : ℚ
  loan_term : ℕ
  repayment_type : RepaymentType
  weekly_rent : ℚ
  vacancy_rate : ℚ
  capital_growth : ℚ
  rental_growth : ℚ
  cpi : ℚ
  council_rates : ℚ
  water_rates : ℚ
  strata_fees : ℚ
  insurance : ℚ
  land_tax : ℚ
  mgmt_fee_pct : ℚ
  maintain_pct : ℚ
  tax_rate : ℚ
  depreciation_first_year : ℚ
deriving DecidableEq

/-- The loop-carried state of calculate_data. -/
structure SimState where
  current_value : ℚ
  loan_amount : ℚ
  current_weekly_rent : ℚ
  cumulative_cashflow : ℚ
  current_depreciation : ℚ
deriving DecidableEq

/-- All quantities computed inside one iteration of the year loop of
calculate_data, before int() truncation.  depreciation_used is the value
of current_depreciation read in this iteration, loan_after / value_after /
cumulative_after are the values after the updates on lines 113-115 of
src/app.py. -/
structure YearFigures where
  annual_rent_gross : ℚ
  effective_rent : ℚ
  interest_payment : ℚ
  principal_payment : ℚ
  current_fixed_expenses : ℚ
  mgmt_fee : ℚ
  maintenance : ℚ
  pre_tax_cashflow : ℚ
  depreciation_used : ℚ
  taxable_income : ℚ
  tax_impact : ℚ
  post_tax_cashflow : ℚ
  cumulative_after : ℚ
  loan_after : ℚ
  value_after : ℚ
  net_wealth : ℚ
deriving DecidableEq

/-- One dictionary appended to data (lines 118-125 of src/app.py): every
numeric column passes through int(). -/
structure YearRow where
  year : ℕ
  market_value : ℤ
  annual_rent : ℤ
  annual_cashflow : ℤ
  cumulative_cashflow : ℤ
  real_total_return : ℤ
deriving DecidableEq

/-- The Python int() coercion on a float truncates toward zero; over ℚ
this is the floor for non-negative arguments and minus the floor of the
negation for negative arguments. -/
def truncQ (q : ℚ) : ℤ :=
  if q < 0 then -⌊-q⌋ else ⌊q⌋

/-- calculate_pmt of src/app.py (lines 54-63): the annual level payment
for balance pv, rate rate and nper remaining years; the Python
(1 + rate) ** -nper is the integer zpow on ℚ. -/
def calculate_pmt (rate : ℚ) (nper : ℤ) (pv : ℚ) : ℚ :=
  if rate = 0 then pv / (nper : ℚ)
  else (rate * pv) / (1 - (1 + rate) ^ (-nper))

/-- sum(expenses_base.values()) on line 101 of src/app.py. -/
def expensesBaseSum (a : Assumptions) : ℚ :=
  a.council_rates + a.water_rates + a.strata_fees + a.insurance + a.land_tax

/-- The repayment branch of the year loop (lines 86-98 of src/app.py):
returns (interest_payment, principal_payment) for the given year and
start-of-year loan balance. -/
def repaymentSplit (a : Assumptions) (year : ℕ) (loan_amount : ℚ) : ℚ × ℚ :=
  match a.repayment_type with
  | RepaymentType.interestOnly => (loan_amount * a.interest_rate, 0)
  | RepaymentType.principalAndInterest =>
      let years_remain : ℤ := (a.loan_term : ℤ) - ((year : ℤ) - 1)
      if 0 < years_remain then
        let annual_repayment := calculate_pmt a.interest_rate years_remain loan_amount
        let interest_payment := loan_amount * a.interest_rate
        (interest_payment, annual_repayment - interest_payment)
      else
        (0, 0)

/-- One iteration of the year loop of calculate_data (lines 81-116 of
src/app.py), producing every intermediate quantity from the start-of-year
state s. -/
def yearCalc (a : Assumptions) (year : ℕ) (s : SimState) : YearFigures :=
  let annual_rent_gross := s.current_weekly_rent * 52
  let vacancy_loss := annual_rent_gross * a.vacancy_rate
  let effective_rent := annual_rent_gross - vacancy_loss
  let split := repaymentSplit a year s.loan_amount
  let interest_payment := split.1
  let principal_payment := split.2
  let inflation_multiplier := (1 + a.cpi) ^ (year - 1)
  let current_fixed_expenses := expensesBaseSum a * inflation_multiplier
  let mgmt_fee := effective_rent * a.mgmt_fee_pct
  let maintenance := effective_rent * a.maintain_pct
  let total_cash_expenses :=
    interest_payment + principal_payment + current_fixed_expenses + mgmt_fee + maintenance
  let pre_tax_cashflow := effective_rent - total_cash_expenses
  let tax_deductible_expenses :=
    interest_payment + current_fixed_expenses + mgmt_fee + maintenance + s.current_depreciation
  let taxable_income := effective_rent - tax_deductible_expenses
  let tax_impact := taxable_income * a.tax_rate
  let post_tax_cashflow := pre_tax_cashflow - tax_impact
  let cumulative_after := s.cumulative_cashflow + post_tax_cashflow
  let loan_after := s.loan_amount - principal_payment
  let value_after := s.current_value * (1 + a.capital_growth)
  let initial_cash_invested := (a.buy_price - a.buy_price * a.lvr) + a.stamp_duty
  let net_wealth := (value_after - loan_after) - initial_cash_invested + cumulative_after
  { annual_rent_gross := annual_rent_gross
    effective_rent := effective_rent
    interest_payment := interest_payment
    principal_payment := principal_payment
    current_fixed_expenses := current_fixed_expenses
    mgmt_fee := mgmt_fee
    maintenance := maintenance
    pre_tax_cashflow := pre_tax_cashflow
    depreciation_used := s.current_depreciation
    taxable_income := taxable_income
    tax_impact := tax_impact
    post_tax_cashflow := post_tax_cashflow
    cumulative_after := cumulative_after
    loan_after := loan_after
    value_after := value_after
    net_wealth := net_wealth }

/-- The state initialisation of calculate_data (lines 69-74 of
src/app.py). -/
def initState (a : Assumptions) : SimState :=
  { current_value := a.buy_price
    loan_amount := a.buy_price * a.lvr
    current_weekly_rent := a.weekly_rent
    cumulative_cashflow := 0
    current_depreciation := a.depreciation_first_year }

/-- The state after one iteration of the year loop: the updates of lines
113-115 together with the two advance lines 127-128 of src/app.py (the
depreciation decay factor 0.9 is a literal in the source). -/
def stepState (a : Assumptions) (year : ℕ) (s : SimState) : SimState :=
  let f := yearCalc a year s
  { current_value := f.value_after
    loan_amount := f.loan_after
    current_weekly_rent := s.current_weekly_rent * (1 + a.rental_growth)
    cumulative_cashflow := f.cumulative_after
    current_depreciation := s.current_depreciation * (9 / 10) }

/-- Loop-carried state after k completed iterations of the year loop. -/
def stateAt (a : Assumptions) : ℕ → SimState
  | 0 => initState a
  | k + 1 => stepState a (k + 1) (stateAt a k)

/-- All quantities computed in iteration year k (for k ≥ 1). -/
def figsAt (a : Assumptions) (k : ℕ) : YearFigures :=
  yearCalc a k (stateAt a (k - 1))

/-- The dictionary appended for a given year (lines 118-125 of
src/app.py): each column is the int() truncation of the corresponding
float. -/
def rowOf (year : ℕ) (f : YearFigures) : YearRow :=
  { year := year
    market_value := truncQ f.value_after
    annual_rent := truncQ f.effective_rent
    annual_cashflow := truncQ f.post_tax_cashflow
    cumulative_cashflow := truncQ f.cumulative_after
    real_total_return := truncQ f.net_wealth }

/-- calculate_data of src/app.py (lines 66-130): the list of emitted rows
for year = 1 .. years. -/
def calculate_data (a : Assumptions) (years : ℕ) : List YearRow :=
  (List.range years).map (fun k => rowOf (k + 1) (figsAt a (k + 1)))

/-- Placeholder row used only to express list indexing in statements. -/
def rowDefault : YearRow :=
  { year := 0, market_value := 0, annual_rent := 0, annual_cashflow := 0
    cumulative_cashflow := 0, real_total_return := 0 }

/-- Domain constraints of the Assumptions table in section 3 of the spec,
restricted to the inputs that exist in the source (fixedAnnualCosts is the
sum of the five cost fields, each taken non-negative; horizonYears is the
separate years argument of calculate_data). -/
def Valid (a : Assumptions) : Prop :=
  0 < a.buy_price ∧ 0 ≤ a.stamp_duty ∧ 0 ≤ a.lvr ∧ a.lvr ≤ 1 ∧
  0 ≤ a.interest_rate ∧ 0 < a.loan_term ∧ 0 ≤ a.weekly_rent ∧
  0 ≤ a.vacancy_rate ∧ a.vacancy_rate ≤ 1 ∧ (-1) ≤ a.capital_growth ∧
  (-1) ≤ a.rental_growth ∧ 0 ≤ a.cpi ∧ 0 ≤ a.council_rates ∧
  0 ≤ a.water_rates ∧ 0 ≤ a.strata_fees ∧ 0 ≤ a.insurance ∧
  0 ≤ a.land_tax ∧ 0 ≤ a.mgmt_fee_pct ∧ 0 ≤ a.maintain_pct ∧
  0 ≤ a.tax_rate ∧ a.tax_rate ≤ 1 ∧ 0 ≤ a.depreciation_first_year

instance (a : Assumptions) : Decidable (Valid a) := by
  unfold Valid
  infer_instance

/-- The example scenario of section 8 of the spec (also the default
values of the sidebar widgets). -/
def aEx : Assumptions :=
  { buy_price := 650000, stamp_duty := 35000, lvr := 4 / 5, interest_rate := 61 / 1000,
    loan_term := 30, repayment_type := RepaymentType.interestOnly,
    weekly_rent := 650, vacancy_rate := 1 / 25, capital_growth := 1 / 20,
    rental_growth := 7 / 200, cpi := 3 / 100, council_rates := 1500, water_rates := 1000,
    strata_fees := 2500, insurance := 1800, land_tax := 1200,
    mgmt_fee_pct := 33 / 500, maintain_pct := 1 / 100, tax_rate := 37 / 100,
    depreciation_first_year := 8000 }

/-- A domain-violating input: negative purchase price. -/
def aBad : Assumptions := { aEx with buy_price := -1 }

/-- A small PrincipalAndInterest scenario: 1000 price, 50 percent LVR,
10 percent rate, 2-year term. -/
def aPI : Assumptions :=
  { buy_price := 1000, stamp_duty := 0, lvr := 1 / 2, interest_rate := 1 / 10,
    loan_term := 2, repayment_type := RepaymentType.principalAndInterest,
    weekly_rent := 0, vacancy_rate := 0, capital_growth := 0,
    rental_growth := 0, cpi := 0, council_rates := 0, water_rates := 0,
    strata_fees := 0, insurance := 0, land_tax := 0,
    mgmt_fee_pct := 0, maintain_pct := 0, tax_rate := 0,
    depreciation_first_year := 0 }

/-- A valid scenario with zero marginal tax rate, no rent and positive
depreciation: its taxable income is negative in year 1. -/
def aTax0 : Assumptions :=
  { buy_price := 1000, stamp_duty := 0, lvr := 0, interest_rate := 0,
    loan_term := 30, repayment_type := RepaymentType.interestOnly,
    weekly_rent := 0, vacancy_rate := 0, capital_growth := 0,
    rental_growth := 0, cpi := 0, council_rates := 0, water_rates := 0,
    strata_fees := 0, insurance := 0, land_tax := 0,
    mgmt_fee_pct := 0, maintain_pct := 0, tax_rate := 0,
    depreciation_first_year := 8000 }

/-- Same scenario with a 37 percent marginal tax rate. -/
def aNeg : Assumptions := { aTax0 with tax_rate := 37 / 100 }

/-- Same scenario with a round depreciation base of 1000. -/
def aDep : Assumptions := { aTax0 with depreciation_first_year := 1000 }

/-- A valid scenario with zero capital growth and a non-integer purchase
price of 650000.5. -/
def aHalf : Assumptions := { aTax0 with buy_price := 1300001 / 2 }

/-- A valid scenario whose post-tax cashflow is 0.6 every year: the
truncated yearly cashflows are 0 while the truncated cumulative cashflow
reaches 1 in year 2. -/
def aFrac : Assumptions := { aTax0 with weekly_rent := 3 / 260 }

/-! Projection lemmas: each records one binding of the loop body. -/

lemma yearCalc_interest (a : Assumptions) (year : ℕ) (s : SimState) :
    (yearCalc a year s).interest_payment = (repaymentSplit a year s.loan_amount).1 := rfl

lemma yearCalc_principal (a : Assumptions) (year : ℕ) (s : SimState) :
    (yearCalc a year s).principal_payment = (repaymentSplit a year s.loan_amount).2 := rfl

lemma yearCalc_tax_impact (a : Assumptions) (year : ℕ) (s : SimState) :
    (yearCalc a year s).tax_impact = (yearCalc a year s).taxable_income * a.tax_rate := rfl

lemma yearCalc_post_tax (a : Assumptions) (year : ℕ) (s : SimState) :
    (yearCalc a year s).post_tax_cashflow
      = (yearCalc a year s).pre_tax_cashflow - (yearCalc a year s).tax_impact := rfl

lemma yearCalc_cumulative (a : Assumptions) (year : ℕ) (s : SimState) :
    (yearCalc a year s).cumulative_after
      = s.cumulative_cashflow + (yearCalc a year s).post_tax_cashflow := rfl

lemma yearCalc_dep_used (a : Assumptions) (year : ℕ) (s : SimState) :
    (yearCalc a year s).depreciation_used = s.current_depreciation := rfl

lemma stepState_loan (a : Assumptions) (year : ℕ) (s : SimState) :
    (stepState a year s).loan_amount
      = s.loan_amount - (repaymentSplit a year s.loan_amount).2 := rfl

lemma stepState_value (a : Assumptions) (year : ℕ) (s : SimState) :
    (stepState a year s).current_value = s.current_value * (1 + a.capital_growth) := rfl

lemma stepState_cum (a : Assumptions) (year : ℕ) (s : SimState) :
    (stepState a year s).cumulative_cashflow = (yearCalc a year s).cumulative_after := rfl

lemma stepState_dep (a : Assumptions) (year : ℕ) (s : SimState) :
    (stepState a year s).current_depreciation = s.current_depreciation * (9 / 10) := rfl

lemma stateAt_succ (a : Assumptions) (k : ℕ) :
    stateAt a (k + 1) = stepState a (k + 1) (stateAt a k) := rfl

lemma figsAt_succ (a : Assumptions) (k : ℕ) :
    figsAt a (k + 1) = yearCalc a (k + 1) (stateAt a k) := rfl

/-! Lemmas on the repayment branch. -/

lemma repaymentSplit_interest_only (a : Assumptions)
    (hm : a.repayment_type = RepaymentType.interestOnly) (year : ℕ) (B : ℚ) :
    repaymentSplit a year B = (B * a.interest_rate, 0) := by
  simp [repaymentSplit, hm]

lemma repaymentSplit_pi_pos (a : Assumptions)
    (hm : a.repayment_type = RepaymentType.principalAndInterest) (year : ℕ) (B : ℚ)
    (hg : 0 < (a.loan_term : ℤ) - ((year : ℤ) - 1)) :
    repaymentSplit a year B
      = (B * a.interest_rate,
         calculate_pmt a.interest_rate ((a.loan_term : ℤ) - ((year : ℤ) - 1)) B
           - B * a.interest_rate) := by
  simp only [repaymentSplit, hm]
  rw [if_pos hg]

lemma repaymentSplit_pi_nonpos (a : Assumptions)
    (hm : a.repayment_type = RepaymentType.principalAndInterest) (year : ℕ) (B : ℚ)
    (hg : ¬ 0 < (a.loan_term : ℤ) - ((year : ℤ) - 1)) :
    repaymentSplit a year B = (0, 0) := by
  simp only [repaymentSplit, hm]
  rw [if_neg hg]

/-! Annuity payment algebra over exact rationals. -/

lemma calculate_pmt_one (r B : ℚ) (hr : 0 ≤ r) :
    calculate_pmt r 1 B = B * (1 + r) := by
  rcases eq_or_lt_of_le hr with h | h
  · rw [calculate_pmt, if_pos h.symm, ← h]
    norm_num
  · have hne : r ≠ 0 := ne_of_gt h
    have h1r : (0 : ℚ) < 1 + r := by linarith
    rw [calculate_pmt, if_neg hne]
    have hx : (1 + r) ^ (-(1 : ℤ)) = (1 + r)⁻¹ := zpow_neg_one (1 + r)
    rw [hx]
    have hden : 1 - (1 + r)⁻¹ = r / (1 + r) := by
      field_simp
    rw [hden]
    rw [div_div_eq_mul_div]
    field_simp
    ring

lemma pi_next_bounds (r B : ℚ) (n : ℤ) (hr : 0 ≤ r) (hB : 0 ≤ B) (hn : 0 < n) :
    0 ≤ B - (calculate_pmt r n B - B * r)
      ∧ B - (calculate_pmt r n B - B * r) ≤ B := by
  rcases eq_or_lt_of_le hr with h | h
  · -- zero interest rate: the payment is B / n
    rw [calculate_pmt, if_pos h.symm, ← h]
    have hn1 : (1 : ℚ) ≤ (n : ℚ) := by exact_mod_cast hn
    have hn0 : (0 : ℚ) < (n : ℚ) := by linarith
    have hle : B / (n : ℚ) ≤ B := div_le_self hB hn1
    have hge : 0 ≤ B / (n : ℚ) := div_nonneg hB hn0.le
    constructor <;> linarith
  · -- positive rate: rewrite the payment as r B x / (x - 1) with x = (1+r)^n
    have hne : r ≠ 0 := ne_of_gt h
    have h1r : (0 : ℚ) < 1 + r := by linarith
    set m : ℕ := n.toNat with hm
    have hmn : (m : ℤ) = n := Int.toNat_of_nonneg hn.le
    have hm0 : m ≠ 0 := by omega
    set x : ℚ := (1 + r) ^ m with hxdef
    have hx1 : 1 < x := one_lt_pow₀ (by linarith) hm0
    have hx0 : (0 : ℚ) < x - 1 := by linarith
    have hxne : x ≠ 0 := by positivity
    have hpmt : calculate_pmt r n B = r * B * x / (x - 1) := by
      rw [calculate_pmt, if_neg hne, ← hmn]
      rw [zpow_neg, zpow_natCast]
      have hden : 1 - ((1 + r) ^ m)⁻¹ = (x - 1) / x := by
        rw [hxdef]
        field_simp
      rw [hden, div_div_eq_mul_div]
    have hxr : 1 + r ≤ x := le_self_pow₀ (by linarith) hm0
    have key1 : B - (calculate_pmt r n B - B * r) = B * (x - 1 - r) / (x - 1) := by
      rw [hpmt]
      field_simp
      ring
    have key2 : calculate_pmt r n B - B * r = r * B / (x - 1) := by
      rw [hpmt]
      field_simp
      ring
    constructor
    · rw [key1]
      apply div_nonneg _ hx0.le
      apply mul_nonneg hB
      linarith
    · have : 0 ≤ r * B / (x - 1) := div_nonneg (mul_nonneg h.le hB) hx0.le
      linarith [key2, this]

/-- One loop iteration never increases the loan balance and keeps it
non-negative, in either repayment mode, as long as the rate is
non-negative and the incoming balance is non-negative. -/
lemma stepState_loan_bounds (a : Assumptions) (year : ℕ) (s : SimState)
    (hr : 0 ≤ a.interest_rate) (hB : 0 ≤ s.loan_amount) :
    0 ≤ (stepState a year s).loan_amount
      ∧ (stepState a year s).loan_amount ≤ s.loan_amount := by
  rw [stepState_loan]
  cases hmode : a.repayment_type with
  | interestOnly =>
      rw [repaymentSplit_interest_only a hmode]
      simpa using hB
  | principalAndInterest =>
      by_cases hg : 0 < (a.loan_term : ℤ) - ((year : ℤ) - 1)
      · rw [repaymentSplit_pi_pos a hmode year s.loan_amount hg]
        have h := pi_next_bounds a.interest_rate s.loan_amount
          ((a.loan_term : ℤ) - ((year : ℤ) - 1)) hr hB hg
        exact ⟨h.1, h.2⟩
      · rw [repaymentSplit_pi_nonpos a hmode year s.loan_amount hg]
        simpa using hB

/-- The loan balance stays non-negative along the whole trajectory. -/
lemma stateAt_loan_nonneg (a : Assumptions) (hr : 0 ≤ a.interest_rate)
    (hB0 : 0 ≤ a.buy_price * a.lvr) : ∀ k, 0 ≤ (stateAt a k).loan_amount := by
  intro k
  induction k with
  | zero => exact hB0
  | succ k ih => exact (stepState_loan_bounds a (k + 1) (stateAt a k) hr ih).1

/-- Under InterestOnly mode the principal payment is 0 every year, so the
balance never changes. -/
lemma stateAt_loan_interest_only (a : Assumptions)
    (hm : a.repayment_type = RepaymentType.interestOnly) :
    ∀ k, (stateAt a k).loan_amount = (initState a).loan_amount := by
  intro k
  induction k with
  | zero => rfl
  | succ k ih =>
      rw [stateAt_succ, stepState_loan, repaymentSplit_interest_only a hm]
      simpa using ih

/-- C1: for every set of assumptions and every horizon N, calculate_data
returns exactly N records whose Year fields are 1..N contiguously in
ascending order. -/
theorem c1_record_count_and_years (a : Assumptions) (N : ℕ) :
    (calculate_data a N).length = N
      ∧ (calculate_data a N).map YearRow.year = List.range' 1 N := by
  refine ⟨by simp [calculate_data], ?_⟩
  apply List.ext_getElem
  · simp [calculate_data]
  · intro i h1 h2
    simp only [calculate_data, List.map_map, List.getElem_map, List.getElem_range,
      List.getElem_range']
    simp [rowOf]
    omega

/-- C4: for every valid set of assumptions the loan balance never
increases from one year to the next, and under InterestOnly mode it is
identical across all years. -/
theorem c4_loan_monotone (a : Assumptions) (hv : Valid a) (k : ℕ) :
    (stateAt a (k + 1)).loan_amount ≤ (stateAt a k).loan_amount
      ∧ (a.repayment_type = RepaymentType.interestOnly →
          (stateAt a k).loan_amount = (initState a).loan_amount) := by
  obtain ⟨hbp, hsd, hlvr, hlvr1, hrate, hterm, hrest⟩ := hv
  constructor
  · have hk : 0 ≤ (stateAt a k).loan_amount :=
      stateAt_loan_nonneg a hrate (mul_nonneg hbp.le hlvr) k
    exact (stepState_loan_bounds a (k + 1) (stateAt a k) hrate hk).2
  · intro hm
    exact stateAt_loan_interest_only a hm k

/-- C3: under PrincipalAndInterest mode with non-negative rate and a
positive initial balance, the balance is exactly 0 after loan_term years,
stays 0 for every later year, and once the term is exhausted both the
interest payment and the principal payment of every subsequent year
are 0. -/
theorem c3_loan_exhaustion (a : Assumptions)
    (hm : a.repayment_type = RepaymentType.principalAndInterest)
    (hr : 0 ≤ a.interest_rate) (hB : 0 < (initState a).loan_amount)
    (ht : 0 < a.loan_term) (k j : ℕ) (hk : a.loan_term ≤ k) (hj : a.loan_term < j) :
    (stateAt a a.loan_term).loan_amount = 0
      ∧ (stateAt a k).loan_amount = 0
      ∧ (figsAt a j).interest_payment = 0
      ∧ (figsAt a j).principal_payment = 0 := by
  -- the final scheduled year has one year remaining, and the re-derived
  -- payment for a one-year term clears any balance exactly
  have hzero : (stateAt a a.loan_term).loan_amount = 0 := by
    obtain ⟨t, htt⟩ : ∃ t, a.loan_term = t + 1 := ⟨a.loan_term - 1, by omega⟩
    rw [htt, stateAt_succ, stepState_loan]
    have hn : (a.loan_term : ℤ) - (((t + 1 : ℕ) : ℤ) - 1) = 1 := by
      push_cast
      omega
    have hg : 0 < (a.loan_term : ℤ) - (((t + 1 : ℕ) : ℤ) - 1) := by omega
    rw [repaymentSplit_pi_pos a hm (t + 1) _ hg]
    rw [hn, calculate_pmt_one _ _ hr]
    ring
  have hstay : ∀ i, a.loan_term ≤ i → (stateAt a i).loan_amount = 0 := by
    intro i hi
    induction i, hi using Nat.le_induction with
    | base => exact hzero
    | succ i hi ih =>
        rw [stateAt_succ, stepState_loan]
        have hg : ¬ 0 < (a.loan_term : ℤ) - (((i + 1 : ℕ) : ℤ) - 1) := by
          push_cast
          omega
        rw [repaymentSplit_pi_nonpos a hm (i + 1) _ hg]
        simpa using ih
  have hpay : (figsAt a j).interest_payment = 0 ∧ (figsAt a j).principal_payment = 0 := by
    have hg : ¬ 0 < (a.loan_term : ℤ) - ((j : ℤ) - 1) := by
      push_cast
      omega
    rw [figsAt, yearCalc_interest, yearCalc_principal,
      repaymentSplit_pi_nonpos a hm j _ hg]
    exact ⟨rfl, rfl⟩
  exact ⟨hzero, hstay k hk, hpay.1, hpay.2⟩

/-- The cumulative cashflow in the loop state is the running total of all
post-tax cashflows produced so far. -/
lemma stateAt_cum_sum (a : Assumptions) :
    ∀ k, (stateAt a k).cumulative_cashflow
      = ∑ i ∈ Finset.range k, (figsAt a (i + 1)).post_tax_cashflow := by
  intro k
  induction k with
  | zero => simp [stateAt, initState]
  | succ k ih =>
      have h : (stateAt a (k + 1)).cumulative_cashflow
          = (stateAt a k).cumulative_cashflow + (figsAt a (k + 1)).post_tax_cashflow := rfl
      rw [h, ih, Finset.sum_range_succ]

/-- C5: the cumulative cashflow reported in year k+1 equals the sum of
the post-tax cashflows of years 1 .. k+1 (exact, pre-truncation values;
maintained as a running total by the loop). -/
theorem c5_cumulative_cashflow (a : Assumptions) (k : ℕ) :
    (figsAt a (k + 1)).cumulative_after
      = ∑ i ∈ Finset.range (k + 1), (figsAt a (i + 1)).post_tax_cashflow := by
  have h : (figsAt a (k + 1)).cumulative_after
      = (stateAt a k).cumulative_cashflow + (figsAt a (k + 1)).post_tax_cashflow := rfl
  rw [h, stateAt_cum_sum, Finset.sum_range_succ]

/-! Truncation lemmas for the int() coercion. -/

lemma truncQ_of_nonneg (q : ℚ) (h : 0 ≤ q) : truncQ q = ⌊q⌋ := by
  rw [truncQ, if_neg (not_lt.mpr h)]

lemma truncQ_eq_of_bounds (q : ℚ) (z : ℤ) (h0 : 0 ≤ q) (h1 : (z : ℚ) ≤ q)
    (h2 : q < (z : ℚ) + 1) : truncQ q = z := by
  rw [truncQ_of_nonneg q h0, Int.floor_eq_iff]
  exact ⟨h1, by push_cast; linarith⟩

/-- Truncation toward zero moves a value by strictly less than 1. -/
lemma truncQ_sub_abs_lt (q : ℚ) : |q - (truncQ q : ℚ)| < 1 := by
  by_cases h : q < 0
  · rw [truncQ, if_pos h]
    have h2 : q - ((-⌊-q⌋ : ℤ) : ℚ) = -Int.fract (-q) := by
      rw [Int.fract]
      push_cast
      ring
    rw [h2, abs_neg, abs_of_nonneg (Int.fract_nonneg _)]
    exact Int.fract_lt_one _
  · push_neg at h
    rw [truncQ_of_nonneg q h]
    have h2 : q - ((⌊q⌋ : ℤ) : ℚ) = Int.fract q := by
      rw [Int.fract]
    rw [h2, abs_of_nonneg (Int.fract_nonneg _)]
    exact Int.fract_lt_one _

/-- Truncation toward zero never increases the absolute value. -/
lemma truncQ_abs_le (q : ℚ) : |(truncQ q : ℚ)| ≤ |q| := by
  by_cases h : q < 0
  · rw [truncQ, if_pos h]
    have h0 : (0 : ℚ) ≤ -q := by linarith
    have hf : (0 : ℚ) ≤ ((⌊-q⌋ : ℤ) : ℚ) := by
      exact_mod_cast Int.floor_nonneg.mpr h0
    have hle : ((⌊-q⌋ : ℤ) : ℚ) ≤ -q := Int.floor_le _
    rw [abs_of_neg h]
    push_cast
    rw [abs_neg, abs_of_nonneg hf]
    exact hle
  · push_neg at h
    rw [truncQ_of_nonneg q h]
    have hf : (0 : ℚ) ≤ ((⌊q⌋ : ℤ) : ℚ) := by
      exact_mod_cast Int.floor_nonneg.mpr h
    rw [abs_of_nonneg h, abs_of_nonneg hf]
    exact Int.floor_le _

/-- C6 (amended): in any year with negative taxable income, a strictly
positive marginal tax rate makes the tax impact negative and the post-tax
cashflow strictly larger than the pre-tax cashflow. -/
theorem c6_negative_gearing (a : Assumptions) (hv : Valid a) (ht : 0 < a.tax_rate)
    (k : ℕ) (hneg : (figsAt a k).taxable_income < 0) :
    (figsAt a k).tax_impact < 0
      ∧ (figsAt a k).pre_tax_cashflow < (figsAt a k).post_tax_cashflow := by
  have h1 : (figsAt a k).tax_impact = (figsAt a k).taxable_income * a.tax_rate := rfl
  have h2 : (figsAt a k).post_tax_cashflow
      = (figsAt a k).pre_tax_cashflow - (figsAt a k).tax_impact := rfl
  have hti : (figsAt a k).tax_impact < 0 := by
    rw [h1]
    exact mul_neg_of_neg_of_pos hneg ht
  refine ⟨hti, ?_⟩
  rw [h2]
  linarith

/-- The depreciation in the loop state decays by the literal factor 0.9
each iteration. -/
lemma stateAt_dep (a : Assumptions) :
    ∀ k, (stateAt a k).current_depreciation
      = a.depreciation_first_year * (9 / 10) ^ k := by
  intro k
  induction k with
  | zero => simp [stateAt, initState]
  | succ k ih =>
      have h : (stateAt a (k + 1)).current_depreciation
          = (stateAt a k).current_depreciation * (9 / 10) := rfl
      rw [h, ih, pow_succ]
      ring

/-- C8 (amended): the depreciation deducted in year k+1 equals
firstYearDepreciation times 0.9^k; the decay rate 0.1 is a hardcoded
literal of calculate_data, not a caller-supplied input. -/
theorem c8_depreciation_decay (a : Assumptions) (k : ℕ) :
    (figsAt a (k + 1)).depreciation_used
      = a.depreciation_first_year * (9 / 10) ^ k := by
  have h : (figsAt a (k + 1)).depreciation_used
      = (stateAt a k).current_depreciation := rfl
  rw [h, stateAt_dep]

/-- With zero capital growth the running value is constant. -/
lemma stateAt_value_const (a : Assumptions) (hg : a.capital_growth = 0) :
    ∀ k, (stateAt a k).current_value = a.buy_price := by
  intro k
  induction k with
  | zero => rfl
  | succ k ih =>
      have h : (stateAt a (k + 1)).current_value
          = (stateAt a k).current_value * (1 + a.capital_growth) := rfl
      rw [h, hg, ih]
      ring

/-- C9 (amended): with zero capital growth the internal market value is
constant at purchasePrice for every year, and every emitted Market Value
column equals the int() truncation of purchasePrice (equal to
purchasePrice itself exactly when the price is an integer). -/
theorem c9_flat_growth (a : Assumptions) (hv : Valid a) (hg : a.capital_growth = 0)
    (k N : ℕ) (r : YearRow) (hr : r ∈ calculate_data a N) :
    (stateAt a k).current_value = a.buy_price
      ∧ r.market_value = truncQ a.buy_price := by
  refine ⟨stateAt_value_const a hg k, ?_⟩
  simp only [calculate_data, List.mem_map, List.mem_range] at hr
  obtain ⟨i, hi, rfl⟩ := hr
  show truncQ (figsAt a (i + 1)).value_after = truncQ a.buy_price
  have hva : (figsAt a (i + 1)).value_after = (stateAt a (i + 1)).current_value := rfl
  rw [hva, stateAt_value_const a hg]

/-- C7: the example scenario reproduces the quoted year-1 intermediate
figures exactly: gross rent 33800, effective rent 32448, interest 31720,
unchanged loan balance 520000 and market value 650000 times 1.05. -/
theorem c7_example_scenario :
    (figsAt aEx 1).annual_rent_gross = 33800
      ∧ (figsAt aEx 1).effective_rent = 32448
      ∧ (figsAt aEx 1).interest_payment = 31720
      ∧ (figsAt aEx 1).loan_after = 520000
      ∧ (figsAt aEx 1).value_after = 650000 * (105 / 100) := by
  refine ⟨?_, ?_, ?_, ?_, ?_⟩ <;>
    norm_num [figsAt, yearCalc, stateAt, initState, repaymentSplit,
      expensesBaseSum, aEx]

/-- C2 counterexample: for a domain-violating input (negative purchase
price) calculate_data does not fail and does not return an empty result:
it returns the full sequence of records. -/
theorem c2_counterexample : ¬ Valid aBad ∧ (calculate_data aBad 2).length = 2 := by
  constructor
  · intro h
    have h1 := h.1
    norm_num [aBad] at h1
  · simp [calculate_data]

/-- C2 (amended): the source performs no input validation and defines no
error: calculate_data returns exactly N records for every input, valid or
not (and an empty list for a non-positive horizon). -/
theorem c2_no_validation (a : Assumptions) (hinv : ¬ Valid a) (N : ℕ) :
    (calculate_data a N).length = N := by
  simp [calculate_data]

theorem c2_no_validation_witness :
    ¬ Valid aBad ∧ (calculate_data aBad 3).length = 3 := by
  have hinv : ¬ Valid aBad := by
    intro h
    have h1 := h.1
    norm_num [aBad] at h1
  exact ⟨hinv, c2_no_validation aBad hinv 3⟩

lemma aFrac_row_columns :
    (calculate_data aFrac 2).map YearRow.annual_cashflow = [0, 0]
      ∧ (calculate_data aFrac 2).map YearRow.cumulative_cashflow = [0, 1] := by
  have p1 : (figsAt aFrac 1).post_tax_cashflow = 3 / 5 := by
    norm_num [figsAt, yearCalc, stateAt, initState, repaymentSplit,
      expensesBaseSum, aFrac, aTax0]
  have p2 : (figsAt aFrac 2).post_tax_cashflow = 3 / 5 := by
    norm_num [figsAt, yearCalc, stateAt, stepState, initState, repaymentSplit,
      expensesBaseSum, aFrac, aTax0]
  have q1 : (figsAt aFrac 1).cumulative_after = 3 / 5 := by
    norm_num [figsAt, yearCalc, stateAt, initState, repaymentSplit,
      expensesBaseSum, aFrac, aTax0]
  have q2 : (figsAt aFrac 2).cumulative_after = 6 / 5 := by
    norm_num [figsAt, yearCalc, stateAt, stepState, initState, repaymentSplit,
      expensesBaseSum, aFrac, aTax0]
  have t1 : truncQ (3 / 5 : ℚ) = 0 :=
    truncQ_eq_of_bounds _ 0 (by norm_num) (by norm_num) (by norm_num)
  have t2 : truncQ (6 / 5 : ℚ) = 1 :=
    truncQ_eq_of_bounds _ 1 (by norm_num) (by norm_num) (by norm_num)
  have hlist : calculate_data aFrac 2
      = [rowOf 1 (figsAt aFrac 1), rowOf 2 (figsAt aFrac 2)] := by
    simp [calculate_data, List.range_succ]
  rw [hlist]
  constructor
  · simp only [List.map_cons, List.map_nil, rowOf]
    rw [p1, p2, t1]
  · simp only [List.map_cons, List.map_nil, rowOf]
    rw [q1, q2, t1, t2]

/-- C10: every column of an emitted record is the int() truncation toward
zero of the corresponding exact quantity, truncation moves each value by
strictly less than 1 and never increases the absolute value, and the
emitted Cumulative Cashflow can differ from the sum of the emitted yearly
Annual Cashflow values (witnessed by the aFrac scenario, where the year-2
cumulative column is 1 while both yearly columns are 0). -/
theorem c10_truncation (a : Assumptions) (N k : ℕ) (hk : k < N) (q : ℚ) :
    ((calculate_data a N).getD k rowDefault).year = k + 1
      ∧ ((calculate_data a N).getD k rowDefault).market_value
          = truncQ (figsAt a (k + 1)).value_after
      ∧ ((calculate_data a N).getD k rowDefault).annual_rent
          = truncQ (figsAt a (k + 1)).effective_rent
      ∧ ((calculate_data a N).getD k rowDefault).annual_cashflow
          = truncQ (figsAt a (k + 1)).post_tax_cashflow
      ∧ ((calculate_data a N).getD k rowDefault).cumulative_cashflow
          = truncQ (figsAt a (k + 1)).cumulative_after
      ∧ ((calculate_data a N).getD k rowDefault).real_total_return
          = truncQ (figsAt a (k + 1)).net_wealth
      ∧ |q - (truncQ q : ℚ)| < 1
      ∧ |(truncQ q : ℚ)| ≤ |q|
      ∧ ((calculate_data aFrac 2).map YearRow.annual_cashflow = [0, 0]
          ∧ (calculate_data aFrac 2).map YearRow.cumulative_cashflow = [0, 1]
          ∧ (1 : ℤ) ≠ 0 + 0) := by
  have hlen : k < (calculate_data a N).length := by
    simpa [calculate_data] using hk
  have hrow : (calculate_data a N).getD k rowDefault
      = rowOf (k + 1) (figsAt a (k + 1)) := by
    rw [List.getD_eq_getElem (calculate_data a N) rowDefault hlen]
    simp [calculate_data]
  rw [hrow]
  exact ⟨rfl, rfl, rfl, rfl, rfl, rfl, truncQ_sub_abs_lt q, truncQ_abs_le q,
    aFrac_row_columns.1, aFrac_row_columns.2, by norm_num⟩

theorem c10_truncation_witness :
    (0 < 2)
      ∧ |(-(3 / 2) : ℚ) - (truncQ (-(3 / 2)) : ℚ)| < 1
      ∧ ((calculate_data aEx 2).getD 0 rowDefault).market_value
          = truncQ (figsAt aEx 1).value_after := by
  refine ⟨by norm_num, ?_, ?_⟩
  · exact (c10_truncation aEx 2 0 (by norm_num) (-(3 / 2))).2.2.2.2.2.2.1
  · exact (c10_truncation aEx 2 0 (by norm_num) (-(3 / 2))).2.1

theorem c3_loan_exhaustion_witness :
    0 < (initState aPI).loan_amount
      ∧ ((stateAt aPI aPI.loan_term).loan_amount = 0
          ∧ (stateAt aPI 5).loan_amount = 0
          ∧ (figsAt aPI 4).interest_payment = 0
          ∧ (figsAt aPI 4).principal_payment = 0) := by
  have hB : 0 < (initState aPI).loan_amount := by norm_num [initState, aPI]
  exact ⟨hB, c3_loan_exhaustion aPI rfl (by norm_num [aPI]) hB
    (by norm_num [aPI]) 5 4 (by norm_num [aPI]) (by norm_num [aPI])⟩

theorem c4_loan_monotone_witness :
    Valid aPI ∧ Valid aEx
      ∧ (stateAt aPI 1).loan_amount ≤ (stateAt aPI 0).loan_amount
      ∧ (stateAt aEx 2).loan_amount = (initState aEx).loan_amount := by
  have h1 : Valid aPI := by norm_num [Valid, aPI]
  have h2 : Valid aEx := by norm_num [Valid, aEx]
  exact ⟨h1, h2, (c4_loan_monotone aPI h1 0).1, (c4_loan_monotone aEx h2 2).2 rfl⟩

/-- C6 counterexample: a valid input with marginal tax rate 0 has
negative taxable income in year 1, yet its tax impact is not negative and
its post-tax cashflow is not larger than its pre-tax cashflow. -/
theorem c6_counterexample :
    Valid aTax0
      ∧ (figsAt aTax0 1).taxable_income < 0
      ∧ ¬ (figsAt aTax0 1).tax_impact < 0
      ∧ ¬ (figsAt aTax0 1).pre_tax_cashflow < (figsAt aTax0 1).post_tax_cashflow := by
  refine ⟨by norm_num [Valid, aTax0], ?_, ?_, ?_⟩ <;>
    norm_num [figsAt, yearCalc, stateAt, initState, repaymentSplit,
      expensesBaseSum, aTax0]

theorem c6_negative_gearing_witness :
    Valid aNeg ∧ 0 < aNeg.tax_rate ∧ (figsAt aNeg 1).taxable_income < 0
      ∧ ((figsAt aNeg 1).tax_impact < 0
          ∧ (figsAt aNeg 1).pre_tax_cashflow < (figsAt aNeg 1).post_tax_cashflow) := by
  have hv : Valid aNeg := by norm_num [Valid, aNeg, aTax0]
  have ht : 0 < aNeg.tax_rate := by norm_num [aNeg, aTax0]
  have hneg : (figsAt aNeg 1).taxable_income < 0 := by
    norm_num [figsAt, yearCalc, stateAt, initState, repaymentSplit,
      expensesBaseSum, aNeg, aTax0]
  exact ⟨hv, ht, hneg, c6_negative_gearing aNeg hv ht 1 hneg⟩

/-- C8 counterexample: the decay rate is not a caller-supplied input: for
the in-range decay value 0.5 the claimed formula fails, because the code
always decays by the hardcoded factor 0.9 (the year-2 depreciation is 900,
not 500). -/
theorem c8_counterexample :
    Valid aDep
      ∧ ((0 : ℚ) ≤ 1 / 2 ∧ (1 / 2 : ℚ) ≤ 1)
      ∧ (figsAt aDep 2).depreciation_used
          ≠ aDep.depreciation_first_year * (1 - 1 / 2) ^ (2 - 1) := by
  refine ⟨by norm_num [Valid, aDep, aTax0], ⟨by norm_num, by norm_num⟩, ?_⟩
  have h : (figsAt aDep 2).depreciation_used = 900 := by
    norm_num [figsAt, yearCalc, stateAt, stepState, initState, repaymentSplit,
      expensesBaseSum, aDep, aTax0]
  rw [h]
  norm_num [aDep, aTax0]

/-- C9 counterexample: with zero capital growth and the non-integer
purchase price 650000.5, the emitted Market Value column is 650000, which
is not equal to the purchase price. -/
theorem c9_counterexample :
    Valid aHalf ∧ aHalf.capital_growth = 0
      ∧ (calculate_data aHalf 1).map YearRow.market_value = [650000]
      ∧ (650000 : ℚ) ≠ aHalf.buy_price := by
  refine ⟨by norm_num [Valid, aHalf, aTax0], by norm_num [aHalf, aTax0], ?_,
    by norm_num [aHalf, aTax0]⟩
  have hv : (figsAt aHalf 1).value_after = 1300001 / 2 := by
    norm_num [figsAt, yearCalc, stateAt, initState, repaymentSplit,
      expensesBaseSum, aHalf, aTax0]
  have ht : truncQ (1300001 / 2 : ℚ) = 650000 :=
    truncQ_eq_of_bounds _ _ (by norm_num) (by norm_num) (by norm_num)
  have hlist : calculate_data aHalf 1 = [rowOf 1 (figsAt aHalf 1)] := by
    simp [calculate_data, List.range_succ]
  rw [hlist]
  simp only [List.map_cons, List.map_nil, rowOf]
  rw [hv, ht]

theorem c9_flat_growth_witness :
    Valid aTax0 ∧ aTax0.capital_growth = 0
      ∧ ((stateAt aTax0 2).current_value = aTax0.buy_price
          ∧ (rowOf 1 (figsAt aTax0 1)).market_value = truncQ aTax0.buy_price) := by
  have hv : Valid aTax0 := by norm_num [Valid, aTax0]
  have hg : aTax0.capital_growth = 0 := rfl
  have hmem : rowOf 1 (figsAt aTax0 1) ∈ calculate_data aTax0 1 := by
    simp only [calculate_data, List.mem_map, List.mem_range]
    exact ⟨0, by norm_num, rfl⟩
  exact ⟨hv, hg, c9_flat_growth aTax0 hv hg 2 1 (rowOf 1 (figsAt aTax0 1)) hmem⟩
